import Mathlib

/-
Verification of the portmaster connection decision core (firewall/master.go)
and the filterlists module lifecycle, as a shallow embedding in Lean 4.

Conventions of the embedding:
- Go strings are Lean Strings; all concrete inputs are ASCII, so Go byte
  lengths and slices coincide with Lean character lengths and String.take.
- External collaborators (netenv, publicsuffix, dga, levenshtein, the
  endpoint and filter-list matchers, the peer-process lookup, the prompt UI)
  are oracles collected in an Env structure: within one decision call they
  are fixed functions, mirroring the spec section 6 collaborator contract.
- A decider mutates the connection only through the verdict setters and
  returns a conclusive flag; we embed each decider as a pure function of the
  read-only connection data returning an optional Decision (which setter was
  called, with which reason and option key), applied by Conn.applyDecision.
-/

namespace Portmaster

/-- Address-space class of an IP. Modelled from the spec: netutils.IPScope
with values HostLocal, LinkLocal, SiteLocal, LocalMulticast, Global,
GlobalMulticast, Unknown, Invalid (netutils is not part of the excerpt). -/
inductive IPScope
  | hostLocal
  | linkLocal
  | siteLocal
  | localMulticast
  | global
  | globalMulticast
  | unknown
  | invalid
deriving DecidableEq

/-- Modelled from the spec: IsLocalhost holds exactly for HostLocal. -/
def IPScope.isLocalhost : IPScope → Bool
  | .hostLocal => true
  | _ => false

/-- Modelled from the spec: LAN scopes are SiteLocal, LinkLocal, LocalMulticast. -/
def IPScope.isLAN : IPScope → Bool
  | .siteLocal => true
  | .linkLocal => true
  | .localMulticast => true
  | _ => false

/-- Modelled from the spec: global scopes are Global and GlobalMulticast. -/
def IPScope.isGlobal : IPScope → Bool
  | .global => true
  | .globalMulticast => true
  | _ => false

/-- Connection type: DNS request or IP connection (network package). -/
inductive ConnType
  | dnsRequest
  | ipConnection
deriving DecidableEq

/-- Verdict of a connection (network package). The Deny setter maps to
block for outbound and to drop for inbound connections, per the source
comment "Block Outbound / Drop Inbound". -/
inductive Verdict
  | undecided
  | undeterminable
  | accept
  | block
  | drop
  | failed
deriving DecidableEq

/-- Endpoint/filter-list match result (endpoints.EPResult). -/
inductive EPResult
  | noMatch
  | undeterminable
  | denied
  | permitted
deriving DecidableEq

/-- Profile default action (profile package constants). -/
inductive DefaultAction
  | notSet
  | permit
  | ask
  | block
deriving DecidableEq

/-- Layered profile configuration, as read by the deciders.
revisionCnt models RevisionCnt() before any Update of this call;
updateResult models the value returned by Update() (and reported by
RevisionCnt() afterwards, per the spec: Update() returns the new counter). -/
structure LayeredProfile where
  blockInbound : Bool
  blockP2P : Bool
  blockScopeInternet : Bool
  blockScopeLAN : Bool
  blockScopeLocal : Bool
  preventBypassing : Bool
  domainHeuristics : Bool
  disableAutoPermit : Bool
  removeOutOfScopeDNS : Bool
  defaultAction : DefaultAction
  needsUpdate : Bool
  revisionCnt : Int
  updateResult : Int
deriving DecidableEq

/-- The profile revision counter visible through RevisionCnt() after a
DecideOnConnection call: the Update() result if an update ran, else the
unchanged counter. -/
def revisionCntAfter (lp : LayeredProfile) : Int :=
  if lp.needsUpdate then lp.updateResult else lp.revisionCnt

/-- The originating process of a connection (read-only for the core). -/
structure Process where
  pid : Int
  path : String
  name : String
  execName : String
  isSystemResolver : Bool
  profile : Option LayeredProfile
deriving DecidableEq

/-- The packet observations used by the deciders: direction, and whether
the source address equals the destination address. -/
structure Pkt where
  outbound : Bool
  srcEqDst : Bool
deriving DecidableEq

/-- The read-only part of a connection: direction, type, entity domain and
scope, resolver scope (none when conn.Resolver is nil), process. -/
structure ConnCore where
  inbound : Bool
  ctype : ConnType
  domain : String
  ipScope : IPScope
  resolverScope : Option IPScope
  process : Process
deriving DecidableEq

/-- A connection: read-only core plus the fields mutated by a decision call
(verdict, reason, reason option key, Internal flag, profile revision
counter, dirty flag, and whether the entity list matches were reset). -/
structure Conn where
  core : ConnCore
  verdict : Verdict
  reason : String
  reasonOptionKey : String
  internal : Bool
  profileRevisionCounter : Int
  saveWhenFinished : Bool
  entityListsReset : Bool
deriving DecidableEq

/-- The decision a decider takes: which verdict setter it calls, with
reason and option key. acceptInternal additionally sets the Internal flag. -/
inductive Decision
  | accept (reason key : String)
  | acceptInternal (reason key : String)
  | block (reason key : String)
  | drop (reason key : String)
  | deny (reason key : String)
deriving DecidableEq

def Conn.accept (c : Conn) (r k : String) : Conn :=
  { c with verdict := .accept, reason := r, reasonOptionKey := k }

def Conn.block (c : Conn) (r k : String) : Conn :=
  { c with verdict := .block, reason := r, reasonOptionKey := k }

def Conn.drop (c : Conn) (r k : String) : Conn :=
  { c with verdict := .drop, reason := r, reasonOptionKey := k }

/-- Deny: Block outbound, Drop inbound (source comment in master.go and
spec section 6 verdict setters). -/
def Conn.deny (c : Conn) (r k : String) : Conn :=
  if c.core.inbound then c.drop r k else c.block r k

def Conn.applyDecision (c : Conn) : Decision → Conn
  | .accept r k => c.accept r k
  | .acceptInternal r k => { c.accept r k with internal := true }
  | .block r k => c.block r k
  | .drop r k => c.drop r k
  | .deny r k => c.deny r k

/-- Oracles for all external collaborators consulted by the deciders.
Within a single decision call (and across calls with unchanged external
inputs) these are fixed. -/
structure Env where
  ownPID : Int
  onlineStatus : Int
  isConnectivityDomain : String → Bool
  preventBypassingResult : EPResult
  preventBypassingReason : String
  matchEndpoint : EPResult × String
  matchServiceEndpoint : EPResult × String
  matchFilterLists : EPResult × String
  etldPlusOne : String → Option String
  lmsScore : String → Rat
  lmsScoreOfDomain : String → Rat
  levMatch : String → String → Rat
  peerPid : Option Int
  peerProcessPath : Int → Option String
  promptVerdict : Verdict
  promptReason : String
  promptOptionKey : String

/-- Modelled from the spec: netenv online status ordering with Portal at 3
(Unknown 0, Offline 1, Limited 2, Portal 3, SemiOnline 4, Online 5).
Only the comparison against Portal is used. -/
def statusPortal : Int := 3

def noReasonOptionKey : String := ""

/- Option keys of the profile package. The profile package is not part of
the excerpt; the spec only fixes that the default-action verdict carries
the identifier "default-action" and that each decider uses its own key.
The concrete strings are immaterial to the claims. -/

def cfgOptionDefaultActionKey : String := "default-action"
def cfgOptionBlockInboundKey : String := "block-inbound"
def cfgOptionBlockP2PKey : String := "block-p2p"
def cfgOptionBlockScopeInternetKey : String := "block-scope-internet"
def cfgOptionBlockScopeLANKey : String := "block-scope-lan"
def cfgOptionBlockScopeLocalKey : String := "block-scope-local"
def cfgOptionEndpointsKey : String := "endpoints"
def cfgOptionServiceEndpointsKey : String := "service-endpoints"
def cfgOptionPreventBypassingKey : String := "prevent-bypassing"
def cfgOptionFilterListsKey : String := "filter-lists"
def cfgOptionRemoveOutOfScopeDNSKey : String := "remove-out-of-scope-dns"
def cfgOptionDomainHeuristicsKey : String := "domain-heuristics"
def cfgOptionDisableAutoPermitKey : String := "disable-auto-permit"

/-- The type of an embedded decider. -/
abbrev DeciderFn := Env → ConnCore → LayeredProfile → Option Pkt → Option Decision

/-- pkt == nil or pkt.IsOutbound(). -/
def pktIsNilOrOutbound : Option Pkt → Bool
  | none => true
  | some p => p.outbound

/-- checkPortmasterConnection: grant own outgoing connections. -/
def checkPortmasterConnection : DeciderFn := fun env core _lp pkt =>
  if core.process.pid = env.ownPID ∧ pktIsNilOrOutbound pkt then
    some (.acceptInternal "connection by Portmaster" noReasonOptionKey)
  else
    none

/-- checkSelfCommunication: if the packet source equals the destination and
the process on the other end has the same executable path, accept as a
process internal connection. Lookup failures pass (log and continue). -/
def checkSelfCommunication : DeciderFn := fun env core _lp pkt =>
  match pkt with
  | none => none
  | some p =>
    if core.process.pid ≥ 0 ∧ p.srcEqDst then
      match env.peerPid with
      | none => none
      | some otherPid =>
        match env.peerProcessPath otherPid with
        | none => none
        | some otherPath =>
          if otherPath = core.process.path then
            some (.acceptInternal "process internal connection" noReasonOptionKey)
          else
            none
    else
      none

/-- checkConnectionType: only IP connections. Inbound, non-localhost,
BlockInbound: Drop. Global scope, empty domain, BlockP2P: Block. -/
def checkConnectionType : DeciderFn := fun _env core lp _pkt =>
  if core.ctype ≠ .ipConnection then
    none
  else if core.inbound ∧ ¬ core.ipScope.isLocalhost ∧ lp.blockInbound then
    some (.drop "inbound connections blocked" cfgOptionBlockInboundKey)
  else if core.ipScope.isGlobal ∧ core.domain = "" ∧ lp.blockP2P then
    some (.block "direct connections (P2P) blocked" cfgOptionBlockP2PKey)
  else
    none

/-- checkConnectionScope: for DNS requests, block when both Internet and
LAN scope are blocked; for IP connections, check the entity scope against
the profile scope switches, and deny Unknown/Invalid scopes outright. -/
def checkConnectionScope : DeciderFn := fun _env core lp _pkt =>
  if core.ctype = .dnsRequest then
    if lp.blockScopeInternet ∧ lp.blockScopeLAN then
      some (.block "Internet and LAN access blocked" cfgOptionBlockScopeInternetKey)
    else
      none
  else
    match core.ipScope with
    | .global | .globalMulticast =>
      if lp.blockScopeInternet then
        some (.deny "Internet access blocked" cfgOptionBlockScopeInternetKey)
      else
        none
    | .siteLocal | .linkLocal | .localMulticast =>
      if lp.blockScopeLAN then
        some (.block "LAN access blocked" cfgOptionBlockScopeLANKey)
      else
        none
    | .hostLocal =>
      if lp.blockScopeLocal then
        some (.block "Localhost access blocked" cfgOptionBlockScopeLocalKey)
      else
        none
    | _ =>
      some (.deny "invalid IP" noReasonOptionKey)

/-- checkEndpointLists: inbound uses MatchServiceEndpoint, outbound uses
MatchEndpoint; Denied means Deny, Permitted means Accept, else pass. -/
def checkEndpointLists : DeciderFn := fun env core _lp _pkt =>
  let res := if core.inbound then env.matchServiceEndpoint else env.matchEndpoint
  let key := if core.inbound then cfgOptionServiceEndpointsKey else cfgOptionEndpointsKey
  match res.1 with
  | .denied => some (.deny res.2 key)
  | .permitted => some (.accept res.2 key)
  | _ => none

/-- checkResolverScope: only IP connections with RemoveOutOfScopeDNS and an
attached resolver. Global resolver answering LAN or Localhost: Block.
LAN resolver answering Localhost: Block. -/
def checkResolverScope : DeciderFn := fun _env core lp _pkt =>
  if core.ctype ≠ .ipConnection then
    none
  else if ¬ lp.removeOutOfScopeDNS then
    none
  else
    match core.resolverScope with
    | none => none
    | some rs =>
      if rs.isGlobal ∧ (core.ipScope.isLAN ∨ core.ipScope.isLocalhost) then
        some (.block "DNS server horizon violation: global DNS server returned local IP address"
          cfgOptionRemoveOutOfScopeDNSKey)
      else if rs.isLAN ∧ core.ipScope.isLocalhost then
        some (.block "DNS server horizon violation: LAN DNS server returned localhost IP address"
          cfgOptionRemoveOutOfScopeDNSKey)
      else
        none

/-- checkConnectivityDomain: special grant for connectivity domains during
network bootstrap (online status at most Portal), outbound only, and only
if the application may use the Internet. -/
def checkConnectivityDomain : DeciderFn := fun env core lp _pkt =>
  if core.domain = "" then
    none
  else if env.onlineStatus > statusPortal then
    none
  else if core.inbound then
    none
  else if lp.blockScopeInternet then
    none
  else if env.isConnectivityDomain core.domain then
    some (.accept "special grant for connectivity domain during network bootstrap" noReasonOptionKey)
  else
    none

/-- checkBypassPrevention: if PreventBypassing, consult the bypass module. -/
def checkBypassPrevention : DeciderFn := fun env _core lp _pkt =>
  if lp.preventBypassing then
    match env.preventBypassingResult with
    | .denied =>
      some (.block ("bypass prevention: " ++ env.preventBypassingReason) cfgOptionPreventBypassingKey)
    | .permitted =>
      some (.accept ("bypass prevention: " ++ env.preventBypassingReason) cfgOptionPreventBypassingKey)
    | _ => none
  else
    none

/-- checkFilterLists: apply the privacy filter lists; only Denied concludes. -/
def checkFilterLists : DeciderFn := fun env _core _lp _pkt =>
  match env.matchFilterLists.1 with
  | .denied => some (.deny env.matchFilterLists.2 cfgOptionFilterListsKey)
  | _ => none

/-- dropInbound: implicit default block for inbound connections. -/
def dropInbound : DeciderFn := fun _env core _lp _pkt =>
  if core.inbound then
    some (.drop "incoming connection blocked by default" cfgOptionServiceEndpointsKey)
  else
    none

/-- strings.Split for a one-character separator, on the character list:
splitting the empty list yields one empty field, and every separator
occurrence starts a new field. -/
def splitCharList (sep : Char) : List Char → List (List Char)
  | [] => [[]]
  | ch :: rest =>
    let r := splitCharList sep rest
    if ch = sep then
      [] :: r
    else
      match r with
      | g :: gs => (ch :: g) :: gs
      | [] => [[ch]]

/-- strings.Split(s, sep) for a one-character separator. -/
def splitOnChar (sep : Char) (s : String) : List String :=
  (splitCharList sep s.data).map String.mk

/-- strings.TrimRight(s, "."): remove all trailing dots. -/
def trimTrailingDots (s : String) : String :=
  String.mk (((s.data.reverse).dropWhile (fun ch => ch = '.')).reverse)

/-- checkDomainHeuristics: score the second-level label of the eTLD+1 with
the LMS metric (score below 5 blocks as a possible DGA domain); for domains
longer than the eTLD+1 by more than 100 characters, additionally score the
first length-of-eTLD+1 characters of the trimmed domain (score below 10
blocks as a possible data tunnel). -/
def checkDomainHeuristics : DeciderFn := fun env core lp _pkt =>
  if ¬ lp.domainHeuristics then
    none
  else if core.domain = "" then
    none
  else
    let trimmedDomain := trimTrailingDots core.domain
    match env.etldPlusOne trimmedDomain with
    | none => none
    | some etld1 =>
      let domainToCheck := (splitOnChar '.' etld1).headD ""
      let score := env.lmsScore domainToCheck
      if score < 5 then
        some (.block "possible DGA domain commonly used by malware" cfgOptionDomainHeuristicsKey)
      else if core.domain.length > etld1.length + 100 then
        let secondCheck := trimmedDomain.take etld1.length
        let score2 := env.lmsScoreOfDomain secondCheck
        if score2 < 10 then
          some (.block "possible data tunnel for covert communication and protection bypassing"
            cfgOptionDomainHeuristicsKey)
        else
          none
      else
        none

/-- Keep only the last two path segments. -/
def lastTwo (l : List String) : List String :=
  if l.length > 2 then l.drop (l.length - 2) else l

/-- The inner loop body of checkRelation for one domain label: first the
kept path segments, then the process Name, then the process ExecName. -/
def relationForLabel (env : Env) (proc : Process) (pathElements : List String)
    (d : String) : Option String :=
  match pathElements.find? (fun pe => env.levMatch d pe > mkRat 1 2) with
  | some pe => some pe
  | none =>
    if env.levMatch d proc.name > mkRat 1 2 then
      some proc.name
    else if env.levMatch d proc.execName > mkRat 1 2 then
      some proc.execName
    else
      none

/-- The matchLoop of checkRelation: first domain label with a related
process element wins. -/
def findRelation (env : Env) (proc : Process) (pathElements : List String) :
    List String → Option (String × String)
  | [] => none
  | d :: ds =>
    match relationForLabel env proc pathElements d with
    | some pe => some (d, pe)
    | none => findRelation env proc pathElements ds

/-- checkRelation: tries to find a relation between a process and a
communication. Transcribed from the source: the first guard returns
not-related whenever the entity domain is non-empty, the second guard
skips unknown processes; the path is split on the POSIX separator and
only the last two segments are kept; the domain is split on dots. -/
def checkRelation (env : Env) (core : ConnCore) : Bool × String :=
  if core.domain ≠ "" then
    (false, "")
  else if core.process.pid < 0 then
    (false, "")
  else
    let pathElements := lastTwo (splitOnChar '/' core.process.path)
    let domainElements := splitOnChar '.' core.domain
    match findRelation env core.process pathElements domainElements with
    | some (d, pe) =>
      (true, "auto allowed: domain is related to process: " ++ d ++ " is related to " ++ pe)
    | none => (false, "")

/-- checkAutoPermitRelated: skipped for default action Permit and when
auto permit is disabled; otherwise accept when checkRelation relates. -/
def checkAutoPermitRelated : DeciderFn := fun env core lp _pkt =>
  if lp.defaultAction = .permit then
    none
  else if lp.disableAutoPermit then
    none
  else
    match checkRelation env core with
    | (true, reason) => some (.accept reason cfgOptionDisableAutoPermitKey)
    | (false, _) => none

/-- The default pipeline, in source order. -/
def defaultDeciders : List DeciderFn :=
  [ checkPortmasterConnection
  , checkSelfCommunication
  , checkConnectionType
  , checkConnectionScope
  , checkEndpointLists
  , checkResolverScope
  , checkConnectivityDomain
  , checkBypassPrevention
  , checkFilterLists
  , dropInbound
  , checkDomainHeuristics
  , checkAutoPermitRelated ]

/-- The system-resolver pipeline. -/
def dnsFromSystemResolverDeciders : List DeciderFn :=
  [ checkConnectivityDomain
  , checkBypassPrevention ]

/-- runDeciders: go through the deciders in order, the first conclusive one
wins. The Go function returns (done, defaultAction); returning the first
Decision (or none) carries the same information, the caller reads the
default action from the profile. -/
def runDeciders (env : Env) : List DeciderFn → ConnCore → LayeredProfile → Option Pkt → Option Decision
  | [], _, _, _ => none
  | f :: fs, core, lp, pkt =>
    match f env core lp pkt with
    | some d => some d
    | none => runDeciders env fs core lp pkt

/-- The profile revision bookkeeping at the head of DecideOnConnection:
on NeedsUpdate, store the Update() result, mark dirty, reset the verdict
and the entity list matches; else, if the stored counter differs from
RevisionCnt(), store it and mark dirty without resetting the verdict. -/
def profileRevisionBookkeeping (lp : LayeredProfile) (conn : Conn) : Conn :=
  if lp.needsUpdate then
    { conn with
      profileRevisionCounter := lp.updateResult
      saveWhenFinished := true
      verdict := .undecided
      entityListsReset := true }
  else if conn.profileRevisionCounter ≠ lp.revisionCnt then
    { conn with
      profileRevisionCounter := lp.revisionCnt
      saveWhenFinished := true }
  else
    conn

/-- The prompt collaborator for the Ask default action (external UI):
sets the verdict the user chose. -/
def applyPrompt (env : Env) (c : Conn) : Conn :=
  { c with
    verdict := env.promptVerdict
    reason := env.promptReason
    reasonOptionKey := env.promptOptionKey }

/-- DecideOnConnection: deny without a profile; run the revision
bookkeeping; dispatch DNS requests from the system resolver to the short
pipeline with an Accept fall-through; run the default pipeline otherwise
and apply the profile default action when no decider concludes. -/
def decideOnConnection (env : Env) (conn : Conn) (pkt : Option Pkt) : Conn :=
  match conn.core.process.profile with
  | none => conn.deny "unknown process or profile" noReasonOptionKey
  | some layeredProfile =>
    let conn := profileRevisionBookkeeping layeredProfile conn
    if conn.core.ctype = .dnsRequest ∧ conn.core.process.isSystemResolver then
      match runDeciders env dnsFromSystemResolverDeciders conn.core layeredProfile pkt with
      | some d => conn.applyDecision d
      | none => conn.accept "allowing system resolver dns request" noReasonOptionKey
    else
      match runDeciders env defaultDeciders conn.core layeredProfile pkt with
      | some d => conn.applyDecision d
      | none =>
        match layeredProfile.defaultAction with
        | .permit => conn.accept "allowed by default action" cfgOptionDefaultActionKey
        | .ask => applyPrompt env conn
        | _ => conn.deny "blocked by default action" cfgOptionDefaultActionKey

/-
The filterlists module lifecycle (intel/filterlists module file).
getCacheDatabaseVersion and defaultFilter.loadFromCache live in other
files of the filterlists package, outside the excerpt; they are modelled
as success oracles. tryListUpdate is likewise outside the excerpt; for
its effect on the module flags, the spec (section 5) records that the
ignore flags are only set by tests to decouple the module, so the update
itself is modelled as not touching them; here only whether it is invoked
matters.
-/

namespace Filterlists

def filterlistsDisabled : String := "filterlists:disabled"
def filterlistsUpdateFailed : String := "filterlists:update-failed"
def filterlistsStaleDataSurvived : String := "filterlists:staledata"
def filterlistsUpdateInProgress : String := "filterlists:update-in-progress"

/-- Success oracles for the two cache-loading steps of start(). -/
structure FLEnv where
  cacheVersionOk : Bool
  bloomLoadOk : Bool
deriving DecidableEq

/-- The module state: the filterListsLoaded barrier (true once the channel
is closed, i.e. the signal is opened), the two event ignore flags, and the
user-visible warnings raised so far (by code). -/
structure FLState where
  filterListsLoaded : Bool
  ignoreUpdateEvents : Bool
  ignoreNetEnvEvents : Bool
  warnings : List String
deriving DecidableEq

/-- The package variables before init: abool.New() flags are unset and the
barrier channel is open (the signal not yet given). -/
def initialState : FLState :=
  { filterListsLoaded := false
  , ignoreUpdateEvents := false
  , ignoreNetEnvEvents := false
  , warnings := [] }

/-- init(): sets ignoreNetEnvEvents and registers the module. -/
def moduleInit (s : FLState) : FLState :=
  { s with ignoreNetEnvEvents := true }

/-- start(): read the cache database version and, only on success, load
the bloom filters; on any failure warn with filterlists:disabled, else
close the filterListsLoaded channel. -/
def start (env : FLEnv) (s : FLState) : FLState :=
  if env.cacheVersionOk ∧ env.bloomLoadOk then
    { s with filterListsLoaded := true }
  else
    { s with warnings := s.warnings ++ [filterlistsDisabled] }

/-- stop(): replace the barrier with a fresh closed one. -/
def stop (s : FLState) : FLState :=
  { s with filterListsLoaded := false }

/-- The resource-update event handler registered in prep(): returns
whether tryListUpdate is invoked. -/
def onResourceUpdateEvent (s : FLState) : FLState × Bool :=
  if s.ignoreUpdateEvents then (s, false) else (s, true)

/-- The online-status-changed event handler registered in prep(): consults
ignoreNetEnvEvents first, then does nothing when offline; returns whether
tryListUpdate is invoked. -/
def onOnlineStatusChanged (s : FLState) (online : Bool) : FLState × Bool :=
  if s.ignoreNetEnvEvents then (s, false)
  else if ¬ online then (s, false)
  else (s, true)

/-- The operations of the module visible after init. -/
inductive FLOp
  | start (env : FLEnv)
  | stop
  | resourceUpdate
  | onlineChanged (online : Bool)

def applyOp (s : FLState) : FLOp → FLState
  | .start env => Filterlists.start env s
  | .stop => Filterlists.stop s
  | .resourceUpdate => (onResourceUpdateEvent s).1
  | .onlineChanged b => (onOnlineStatusChanged s b).1

def applyOps (s : FLState) : List FLOp → FLState
  | [] => s
  | op :: ops => applyOps (applyOp s op) ops

end Filterlists

/-- The verdict of a Deny, as a function of the direction. -/
def denyVerdict (inbound : Bool) : Verdict :=
  if inbound then .drop else .block

/-- Verdict and reason produced by applying a Decision, as a function of
the direction only. -/
def decisionVR (inbound : Bool) : Decision → Verdict × String
  | .accept r _ => (.accept, r)
  | .acceptInternal r _ => (.accept, r)
  | .block r _ => (.block, r)
  | .drop r _ => (.drop, r)
  | .deny r _ => (denyVerdict inbound, r)

/-- The verdict and reason of a decision call, computed from the read-only
core and the environment alone. -/
def decisionOutput (env : Env) (core : ConnCore) (pkt : Option Pkt) : Verdict × String :=
  match core.process.profile with
  | none => (denyVerdict core.inbound, "unknown process or profile")
  | some lp =>
    if core.ctype = .dnsRequest ∧ core.process.isSystemResolver then
      match runDeciders env dnsFromSystemResolverDeciders core lp pkt with
      | some d => decisionVR core.inbound d
      | none => (.accept, "allowing system resolver dns request")
    else
      match runDeciders env defaultDeciders core lp pkt with
      | some d => decisionVR core.inbound d
      | none =>
        match lp.defaultAction with
        | .permit => (.accept, "allowed by default action")
        | .ask => (env.promptVerdict, env.promptReason)
        | _ => (denyVerdict core.inbound, "blocked by default action")

/-- Replace the default action of a profile, leaving every other option
unchanged (used to state that a pipeline never consults the default action). -/
def Process.withDefaultAction (p : Process) (a : DefaultAction) : Process :=
  { p with profile := p.profile.map (fun lp => { lp with defaultAction := a }) }

/-- Replace the default action of the profile governing a connection. -/
def Conn.withDefaultAction (c : Conn) (a : DefaultAction) : Conn :=
  { c with core := { c.core with process := c.core.process.withDefaultAction a } }

/- ### Concrete inputs for the claim instances -/

/-- A profile with every switch off, default action Block, no pending
update, revision counter 1. -/
def lpBase : LayeredProfile :=
  { blockInbound := false
  , blockP2P := false
  , blockScopeInternet := false
  , blockScopeLAN := false
  , blockScopeLocal := false
  , preventBypassing := false
  , domainHeuristics := false
  , disableAutoPermit := false
  , removeOutOfScopeDNS := false
  , defaultAction := .block
  , needsUpdate := false
  , revisionCnt := 1
  , updateResult := 2 }

/-- A neutral environment: the Portmaster process has PID 999, the host is
fully online, no matcher matches, the peer lookup fails, and the
Levenshtein oracle relates the label google to the segment google-chrome
with similarity 9/10 (above the 0.5 threshold) and nothing else. -/
def envBase : Env :=
  { ownPID := 999
  , onlineStatus := 5
  , isConnectivityDomain := fun _ => false
  , preventBypassingResult := .noMatch
  , preventBypassingReason := ""
  , matchEndpoint := (.noMatch, "")
  , matchServiceEndpoint := (.noMatch, "")
  , matchFilterLists := (.noMatch, "")
  , etldPlusOne := fun _ => none
  , lmsScore := fun _ => 50
  , lmsScoreOfDomain := fun _ => 50
  , levMatch := fun d pe => if d = "google" ∧ pe = "google-chrome" then mkRat 9 10 else 0
  , peerPid := none
  , peerProcessPath := fun _ => none
  , promptVerdict := .failed
  , promptReason := ""
  , promptOptionKey := "" }

/-- A fresh connection around a given core. -/
def mkConn (core : ConnCore) : Conn :=
  { core := core
  , verdict := .undecided
  , reason := ""
  , reasonOptionKey := ""
  , internal := false
  , profileRevisionCounter := 1
  , saveWhenFinished := false
  , entityListsReset := false }

/-- The browser process of spec scenario 6: a known PID and a path ending
in google-chrome. -/
def chromeProcess : Process :=
  { pid := 1200
  , path := "/opt/google/chrome/google-chrome"
  , name := "google-chrome"
  , execName := "google-chrome"
  , isSystemResolver := false
  , profile := some lpBase }

/-- Spec scenario 6: outbound connection to mail.google.com from the
browser process, default action Block, auto permit enabled. -/
def conn1 : Conn :=
  mkConn
    { inbound := false
    , ctype := .ipConnection
    , domain := "mail.google.com"
    , ipScope := .global
    , resolverScope := none
    , process := chromeProcess }

/-- An environment whose own PID is that of the connecting process. -/
def env2 : Env := { envBase with ownPID := 1200 }

/-- An outbound IP connection with Invalid entity scope originating from
the Portmaster process itself. -/
def conn2 : Conn :=
  mkConn
    { inbound := false
    , ctype := .ipConnection
    , domain := ""
    , ipScope := .invalid
    , resolverScope := none
    , process :=
      { pid := 1200
      , path := "/usr/lib/portmaster/portmaster-core"
      , name := "portmaster-core"
      , execName := "portmaster-core"
      , isSystemResolver := false
      , profile := some lpBase } }

/-- An outbound IP connection with Invalid entity scope from an ordinary
process (for the amended scope invariant). -/
def conn2w : Conn :=
  mkConn
    { inbound := false
    , ctype := .ipConnection
    , domain := ""
    , ipScope := .invalid
    , resolverScope := none
    , process :=
      { pid := 555
      , path := "/usr/bin/someapp"
      , name := "someapp"
      , execName := "someapp"
      , isSystemResolver := false
      , profile := some lpBase } }

/-- An environment whose outbound endpoint matcher permits the entity. -/
def env3 : Env := { envBase with matchEndpoint := (.permitted, "endpoint rule matched") }

/-- A profile with RemoveOutOfScopeDNS enabled. -/
def lp3 : LayeredProfile := { lpBase with removeOutOfScopeDNS := true }

/-- An outbound IP connection to a SiteLocal address resolved by a Global
resolver under lp3. -/
def conn3 : Conn :=
  mkConn
    { inbound := false
    , ctype := .ipConnection
    , domain := ""
    , ipScope := .siteLocal
    , resolverScope := some .global
    , process :=
      { pid := 1300
      , path := "/usr/bin/app3"
      , name := "app3"
      , execName := "app3"
      , isSystemResolver := false
      , profile := some lp3 } }

/-- A connection for the amended horizon invariant: same as conn3 but with
no endpoint match in envBase. -/
def conn3w : Conn :=
  mkConn
    { inbound := false
    , ctype := .ipConnection
    , domain := ""
    , ipScope := .siteLocal
    , resolverScope := some .global
    , process :=
      { pid := 1301
      , path := "/usr/bin/app3w"
      , name := "app3w"
      , execName := "app3w"
      , isSystemResolver := false
      , profile := some lp3 } }

/-- A profile whose revision counter moved from 1 to 7 without a semantic
update. -/
def lp4 : LayeredProfile := { lpBase with revisionCnt := 7, updateResult := 8 }

/-- A connection whose stored revision counter 1 differs from lp4. -/
def conn4 : Conn :=
  mkConn
    { inbound := false
    , ctype := .ipConnection
    , domain := ""
    , ipScope := .global
    , resolverScope := none
    , process :=
      { pid := 1500
      , path := "/usr/bin/app4"
      , name := "app4"
      , execName := "app4"
      , isSystemResolver := false
      , profile := some lp4 } }

/-- A connection whose process carries no layered profile. -/
def conn5 : Conn :=
  mkConn
    { inbound := false
    , ctype := .ipConnection
    , domain := ""
    , ipScope := .global
    , resolverScope := none
    , process :=
      { pid := 1600
      , path := "/usr/bin/app5"
      , name := "app5"
      , execName := "app5"
      , isSystemResolver := false
      , profile := none } }

/-- A DNS request issued by the system resolver. -/
def conn6 : Conn :=
  mkConn
    { inbound := false
    , ctype := .dnsRequest
    , domain := "example.com"
    , ipScope := .unknown
    , resolverScope := none
    , process :=
      { pid := 1700
      , path := "/usr/bin/systemd-resolved"
      , name := "systemd-resolved"
      , execName := "systemd-resolved"
      , isSystemResolver := true
      , profile := some lpBase } }

/-- The 110-character subdomain label of the data-tunnel scenario. -/
def tunnelLabel : String := String.mk (List.replicate 110 'a')

/-- A domain whose length exceeds its eTLD+1 (example.com) by 111. -/
def tunnelDomain : String := tunnelLabel ++ ".example.com"

/-- An environment for the heuristics claim: the registrable domain of
every name is example.com, the second-level label scores 6, and the
whole-domain LMS oracle scores long inputs 3 and short inputs 50. -/
def env7 : Env :=
  { envBase with
    etldPlusOne := fun _ => some "example.com"
    , lmsScore := fun _ => 6
    , lmsScoreOfDomain := fun s => if s.length > 50 then 3 else 50 }

/-- env7 with a whole-domain LMS oracle that scores everything 3. -/
def env7w : Env := { env7 with lmsScoreOfDomain := fun _ => 3 }

/-- A profile with domain heuristics enabled. -/
def lp7 : LayeredProfile := { lpBase with domainHeuristics := true }

/-- The read-only data of an outbound connection to tunnelDomain. -/
def core7 : ConnCore :=
  { inbound := false
  , ctype := .ipConnection
  , domain := tunnelDomain
  , ipScope := .global
  , resolverScope := none
  , process :=
    { pid := 1400
    , path := "/usr/bin/app7"
    , name := "app7"
    , execName := "app7"
    , isSystemResolver := false
    , profile := some lp7 } }

/- ### Helper lemmas about the decision pipeline -/

/-- The revision bookkeeping does not touch the read-only core. -/
theorem profileRevisionBookkeeping_core (lp : LayeredProfile) (c : Conn) :
    (profileRevisionBookkeeping lp c).core = c.core := by
  unfold profileRevisionBookkeeping
  split
  · rfl
  · split <;> rfl

/-- The verdict setters do not touch the read-only core. -/
theorem applyDecision_core (c : Conn) (d : Decision) :
    (c.applyDecision d).core = c.core := by
  cases d <;> simp [Conn.applyDecision, Conn.accept, Conn.block, Conn.drop, Conn.deny] <;> split <;> rfl

/-- The verdict setters do not touch the revision counter. -/
theorem applyDecision_counter (c : Conn) (d : Decision) :
    (c.applyDecision d).profileRevisionCounter = c.profileRevisionCounter := by
  cases d <;> simp [Conn.applyDecision, Conn.accept, Conn.block, Conn.drop, Conn.deny] <;> split <;> rfl

/-- DecideOnConnection preserves the read-only core of the connection. -/
theorem decideOnConnection_core (env : Env) (c : Conn) (pkt : Option Pkt) :
    (decideOnConnection env c pkt).core = c.core := by
  unfold decideOnConnection
  cases hp : c.core.process.profile with
  | none => simp [Conn.deny, Conn.block, Conn.drop]; split <;> rfl
  | some lp =>
    have hb := profileRevisionBookkeeping_core lp c
    simp only []
    split
    · cases hr : runDeciders env dnsFromSystemResolverDeciders (profileRevisionBookkeeping lp c).core lp pkt with
      | some d => simp [hr, applyDecision_core, hb]
      | none => simp [hr, Conn.accept, hb]
    · cases hr : runDeciders env defaultDeciders (profileRevisionBookkeeping lp c).core lp pkt with
      | some d => simp [hr, applyDecision_core, hb]
      | none =>
        cases hda : lp.defaultAction <;>
          simp [hr, hda, Conn.accept, Conn.deny, Conn.block, Conn.drop, applyPrompt, hb] <;>
          split <;> simp [hb]

/-- Applying a decision yields the verdict and reason given by decisionVR. -/
theorem applyDecision_vr (c : Conn) (d : Decision) :
    ((c.applyDecision d).verdict, (c.applyDecision d).reason) = decisionVR c.core.inbound d := by
  cases d <;>
    simp [Conn.applyDecision, Conn.accept, Conn.block, Conn.drop, Conn.deny, decisionVR,
      denyVerdict] <;>
    split <;> simp

/-- The verdict and reason of DecideOnConnection are a function of the
environment, the read-only core, and the packet; every code path ends in
exactly one verdict setter. -/
theorem decideOnConnection_output (env : Env) (c : Conn) (pkt : Option Pkt) :
    ((decideOnConnection env c pkt).verdict, (decideOnConnection env c pkt).reason)
      = decisionOutput env c.core pkt := by
  unfold decideOnConnection decisionOutput
  cases hp : c.core.process.profile with
  | none =>
    simp [Conn.deny, Conn.block, Conn.drop, denyVerdict]
    split <;> simp
  | some lp =>
    have hb := profileRevisionBookkeeping_core lp c
    simp only [hb]
    split
    · cases hr : runDeciders env dnsFromSystemResolverDeciders c.core lp pkt with
      | some d =>
        simp only [hr]
        have hv := applyDecision_vr (profileRevisionBookkeeping lp c) d
        rw [hb] at hv
        exact hv
      | none => simp [hr, Conn.accept]
    · cases hr : runDeciders env defaultDeciders c.core lp pkt with
      | some d =>
        simp only [hr]
        have hv := applyDecision_vr (profileRevisionBookkeeping lp c) d
        rw [hb] at hv
        exact hv
      | none =>
        cases hda : lp.defaultAction with
        | permit => simp [hr, hda, Conn.accept]
        | ask => simp [hr, hda, applyPrompt]
        | notSet =>
          simp [hr, hda, Conn.deny, Conn.block, Conn.drop, denyVerdict, hb]
          split <;> simp [hb]
        | block =>
          simp [hr, hda, Conn.deny, Conn.block, Conn.drop, denyVerdict, hb]
          split <;> simp [hb]

/- ### Claims -/

/-- Claim C1: the claim expects checkRelation to relate a non-empty domain
to the process and expects the scenario (outbound to mail.google.com from
a process whose path ends in google-chrome, default action Block, auto
permit enabled) to be Accepted with the relatedness reason. The code
instead returns not-related for every non-empty domain (its first guard is
inverted), so even with the Levenshtein oracle scoring google against
google-chrome above the 0.5 threshold, the connection falls through to the
default action and is blocked. -/
theorem c1_checkRelation_dead_for_nonempty_domain :
    conn1.core.domain = "mail.google.com"
    ∧ conn1.core.process.pid ≥ 0
    ∧ envBase.levMatch "google" "google-chrome" > mkRat 1 2
    ∧ checkRelation envBase conn1.core = (false, "")
    ∧ (decideOnConnection envBase conn1 none).verdict = Verdict.block
    ∧ (decideOnConnection envBase conn1 none).reason = "blocked by default action" := by
  decide

/-- Claim C2 (counterexample): an outbound IP connection with Invalid
entity scope originating from the Portmaster process itself is Accepted by
checkPortmasterConnection before the scope check runs, so the verdict is
not Deny regardless of the originating process. -/
theorem c2_counterexample :
    conn2.core.ctype = ConnType.ipConnection
    ∧ conn2.core.ipScope = IPScope.invalid
    ∧ conn2.core.process.profile = some lpBase
    ∧ (decideOnConnection env2 conn2 none).verdict = Verdict.accept
    ∧ (decideOnConnection env2 conn2 none).reason = "connection by Portmaster"
    ∧ ¬ ((decideOnConnection env2 conn2 none).verdict = Verdict.block
         ∨ (decideOnConnection env2 conn2 none).verdict = Verdict.drop) := by
  decide

/-- Claim C2 (amended): for every DecideOnConnection call on an IP
connection with Unknown or Invalid entity scope and a non-nil layered
profile, provided the connection is not concluded earlier as a Portmaster
own connection or as process-internal communication, the verdict is the
Deny outcome: Block for outbound and Drop for inbound, regardless of the
profile configuration. -/
theorem c2_amended (env : Env) (conn : Conn) (pkt : Option Pkt) (lp : LayeredProfile)
    (hp : conn.core.process.profile = some lp)
    (hty : conn.core.ctype = ConnType.ipConnection)
    (hscope : conn.core.ipScope = IPScope.unknown ∨ conn.core.ipScope = IPScope.invalid)
    (h1 : checkPortmasterConnection env conn.core lp pkt = none)
    (h2 : checkSelfCommunication env conn.core lp pkt = none) :
    (decideOnConnection env conn pkt).verdict
      = (if conn.core.inbound then Verdict.drop else Verdict.block) := by
  have hout := decideOnConnection_output env conn pkt
  have hv : (decideOnConnection env conn pkt).verdict = (decisionOutput env conn.core pkt).1 := by
    rw [← hout]
  rw [hv]
  rcases hscope with hs | hs <;>
    cases hin : conn.core.inbound <;>
    cases hbi : lp.blockInbound <;>
      simp [decisionOutput, hp, defaultDeciders, runDeciders, h1, h2, checkConnectionType,
        checkConnectionScope, hty, hs, hin, hbi, IPScope.isLocalhost, IPScope.isGlobal,
        decisionVR, denyVerdict]

/-- Claim C2 (witness): the amended scope invariant at a concrete outbound
connection with Invalid scope from an ordinary process. -/
theorem c2_amended_witness :
    (decideOnConnection envBase conn2w none).verdict
      = (if conn2w.core.inbound then Verdict.drop else Verdict.block) :=
  c2_amended envBase conn2w none lpBase rfl rfl (Or.inr rfl) (by decide) (by decide)

/-- Claim C3 (counterexample): an outbound IP connection with
RemoveOutOfScopeDNS enabled, a Global resolver and a SiteLocal (non-Global)
entity is Accepted by checkEndpointLists, which runs before
checkResolverScope, so the verdict is not Block. -/
theorem c3_counterexample :
    lp3.removeOutOfScopeDNS = true
    ∧ conn3.core.resolverScope = some IPScope.global
    ∧ IPScope.global.isGlobal = true
    ∧ ¬ conn3.core.ipScope = IPScope.global
    ∧ conn3.core.process.profile = some lp3
    ∧ (decideOnConnection env3 conn3 none).verdict = Verdict.accept
    ∧ ¬ ((decideOnConnection env3 conn3 none).verdict = Verdict.block) := by
  decide

/-- Claim C3 (amended): for every DecideOnConnection call on an IP
connection where the profile has RemoveOutOfScopeDNS enabled, a resolver
of Global scope is attached and the entity scope is LAN or Localhost,
provided none of the five deciders preceding checkResolverScope
(Portmaster connection, self communication, connection type, connection
scope, endpoint lists) concludes, the verdict is Block with the horizon
violation reason. -/
theorem c3_amended (env : Env) (conn : Conn) (pkt : Option Pkt) (lp : LayeredProfile) (rs : IPScope)
    (hp : conn.core.process.profile = some lp)
    (hty : conn.core.ctype = ConnType.ipConnection)
    (hro : lp.removeOutOfScopeDNS = true)
    (hr : conn.core.resolverScope = some rs)
    (hrg : rs.isGlobal = true)
    (hsc : conn.core.ipScope.isLAN = true ∨ conn.core.ipScope.isLocalhost = true)
    (h1 : checkPortmasterConnection env conn.core lp pkt = none)
    (h2 : checkSelfCommunication env conn.core lp pkt = none)
    (h3 : checkConnectionType env conn.core lp pkt = none)
    (h4 : checkConnectionScope env conn.core lp pkt = none)
    (h5 : checkEndpointLists env conn.core lp pkt = none) :
    (decideOnConnection env conn pkt).verdict = Verdict.block
    ∧ (decideOnConnection env conn pkt).reason
        = "DNS server horizon violation: global DNS server returned local IP address" := by
  have hdo : decisionOutput env conn.core pkt
      = (Verdict.block,
         "DNS server horizon violation: global DNS server returned local IP address") := by
    rcases hsc with h | h <;>
      simp [decisionOutput, hp, defaultDeciders, runDeciders, h1, h2, h3, h4, h5,
        checkResolverScope, hty, hro, hr, hrg, h, decisionVR]
  have hout := decideOnConnection_output env conn pkt
  rw [hdo] at hout
  simp only [Prod.mk.injEq] at hout
  exact hout

/-- Claim C3 (witness): the amended horizon invariant at a concrete
outbound connection to a SiteLocal address resolved by a Global resolver. -/
theorem c3_amended_witness :
    (decideOnConnection envBase conn3w none).verdict = Verdict.block
    ∧ (decideOnConnection envBase conn3w none).reason
        = "DNS server horizon violation: global DNS server returned local IP address" :=
  c3_amended envBase conn3w none lp3 IPScope.global rfl rfl rfl rfl rfl (Or.inl rfl)
    (by decide) (by decide) (by decide) (by decide) (by decide)

/-- Claim C4: for every DecideOnConnection call on a connection whose
process carries a layered profile, the revision counter stored on the
connection on return equals the revision counter the profile reports after
the call; and when NeedsUpdate is false but the stored counter differs,
the bookkeeping updates the counter and marks the connection dirty while
leaving the verdict (and everything else) unchanged. -/
theorem c4_revision_invariant (env : Env) (conn : Conn) (pkt : Option Pkt) (lp : LayeredProfile)
    (hp : conn.core.process.profile = some lp) :
    (decideOnConnection env conn pkt).profileRevisionCounter = revisionCntAfter lp
    ∧ (lp.needsUpdate = false → ¬ conn.profileRevisionCounter = lp.revisionCnt →
        profileRevisionBookkeeping lp conn
          = { conn with profileRevisionCounter := lp.revisionCnt, saveWhenFinished := true }) := by
  constructor
  · have hcnt : (profileRevisionBookkeeping lp conn).profileRevisionCounter = revisionCntAfter lp := by
      unfold profileRevisionBookkeeping revisionCntAfter
      cases hnu : lp.needsUpdate <;> simp [hnu]
      by_cases hne : conn.profileRevisionCounter = lp.revisionCnt <;> simp [hne]
    unfold decideOnConnection
    rw [hp]
    simp only []
    split
    · cases hr : runDeciders env dnsFromSystemResolverDeciders (profileRevisionBookkeeping lp conn).core lp pkt with
      | some d => simp [hr, applyDecision_counter, hcnt]
      | none => simp [hr, Conn.accept, hcnt]
    · cases hr : runDeciders env defaultDeciders (profileRevisionBookkeeping lp conn).core lp pkt with
      | some d => simp [hr, applyDecision_counter, hcnt]
      | none =>
        cases hda : lp.defaultAction <;>
          simp [hr, hda, Conn.accept, Conn.deny, Conn.block, Conn.drop, applyPrompt,
            applyDecision_counter, hcnt] <;>
          split <;> simp [Conn.drop, Conn.block, hcnt]
  · intro hnu hne
    simp [profileRevisionBookkeeping, hnu, hne]

/-- Claim C4 (witness): the revision invariant at a connection whose
stored counter 1 differs from the profile counter 7 with no update
pending. -/
theorem c4_witness :
    (decideOnConnection envBase conn4 none).profileRevisionCounter = revisionCntAfter lp4
    ∧ profileRevisionBookkeeping lp4 conn4
        = { conn4 with profileRevisionCounter := lp4.revisionCnt, saveWhenFinished := true } := by
  have h := c4_revision_invariant envBase conn4 none lp4 rfl
  exact ⟨h.1, h.2 rfl (by decide)⟩

/-- Claim C5: for every DecideOnConnection call on a connection whose
process has no layered profile, the connection is exactly the input with
verdict set by Deny (Block outbound, Drop inbound) and reason
"unknown process or profile"; in particular no decider runs. -/
theorem c5_nil_profile (env : Env) (conn : Conn) (pkt : Option Pkt)
    (hp : conn.core.process.profile = none) :
    decideOnConnection env conn pkt
      = conn.deny "unknown process or profile" noReasonOptionKey := by
  unfold decideOnConnection
  rw [hp]

/-- Claim C5 (witness): the nil-profile denial at a concrete connection. -/
theorem c5_witness :
    decideOnConnection envBase conn5 none
      = conn5.deny "unknown process or profile" noReasonOptionKey :=
  c5_nil_profile envBase conn5 none rfl

/-- The system-resolver pipeline reads only the entity domain, the
direction, BlockScopeInternet and PreventBypassing: its outcome agrees on
any two inputs that agree there. -/
theorem dnsDeciders_inputs (env : Env) (core core2 : ConnCore) (lp lp2 : LayeredProfile)
    (pkt : Option Pkt)
    (hdom : core2.domain = core.domain)
    (hin : core2.inbound = core.inbound)
    (hbsi : lp2.blockScopeInternet = lp.blockScopeInternet)
    (hpb : lp2.preventBypassing = lp.preventBypassing) :
    runDeciders env dnsFromSystemResolverDeciders core2 lp2 pkt
      = runDeciders env dnsFromSystemResolverDeciders core lp pkt := by
  simp [dnsFromSystemResolverDeciders, runDeciders, checkConnectivityDomain,
    checkBypassPrevention, hdom, hin, hbsi, hpb]

/-- Claim C6: for every DNS request from the system resolver with a
layered profile, the decision is that of the two-decider pipeline: when
neither checkConnectivityDomain nor checkBypassPrevention concludes the
verdict is Accept with reason "allowing system resolver dns request", and
the verdict and reason are unchanged under any replacement of the profile
default action (the default action is never applied). -/
theorem c6_system_resolver (env : Env) (conn : Conn) (pkt : Option Pkt) (lp : LayeredProfile)
    (hp : conn.core.process.profile = some lp)
    (hty : conn.core.ctype = ConnType.dnsRequest)
    (hsr : conn.core.process.isSystemResolver = true) :
    (runDeciders env dnsFromSystemResolverDeciders conn.core lp pkt = none →
      (decideOnConnection env conn pkt).verdict = Verdict.accept
      ∧ (decideOnConnection env conn pkt).reason = "allowing system resolver dns request")
    ∧ ∀ a : DefaultAction,
        (decideOnConnection env (conn.withDefaultAction a) pkt).verdict
          = (decideOnConnection env conn pkt).verdict
        ∧ (decideOnConnection env (conn.withDefaultAction a) pkt).reason
          = (decideOnConnection env conn pkt).reason := by
  have hout := decideOnConnection_output env conn pkt
  constructor
  · intro hnone
    have hdo : decisionOutput env conn.core pkt
        = (Verdict.accept, "allowing system resolver dns request") := by
      simp [decisionOutput, hp, hty, hsr, hnone]
    rw [hdo] at hout
    simp only [Prod.mk.injEq] at hout
    exact hout
  · intro a
    have hout2 := decideOnConnection_output env (conn.withDefaultAction a) pkt
    have hp2 : (conn.withDefaultAction a).core.process.profile
        = some { lp with defaultAction := a } := by
      simp [Conn.withDefaultAction, Process.withDefaultAction, hp]
    have hctype : (conn.withDefaultAction a).core.ctype = ConnType.dnsRequest := by
      simp [Conn.withDefaultAction, hty]
    have hsr2 : (conn.withDefaultAction a).core.process.isSystemResolver = true := by
      simp [Conn.withDefaultAction, Process.withDefaultAction, hsr]
    have hinb : (conn.withDefaultAction a).core.inbound = conn.core.inbound := by
      simp [Conn.withDefaultAction]
    have hrun : runDeciders env dnsFromSystemResolverDeciders (conn.withDefaultAction a).core
        { lp with defaultAction := a } pkt
        = runDeciders env dnsFromSystemResolverDeciders conn.core lp pkt :=
      dnsDeciders_inputs env conn.core (conn.withDefaultAction a).core lp
        { lp with defaultAction := a } pkt (by simp [Conn.withDefaultAction])
        hinb (by simp) (by simp)
    have hdo2 : decisionOutput env (conn.withDefaultAction a).core pkt
        = decisionOutput env conn.core pkt := by
      simp only [decisionOutput, hp2, hp, hctype, hsr2, hty, hsr, hinb, hrun]
      cases hr : runDeciders env dnsFromSystemResolverDeciders conn.core lp pkt <;>
        simp [hr]
    rw [hdo2] at hout2
    have h := hout2.trans hout.symm
    simp only [Prod.mk.injEq] at h
    exact h

/-- Claim C6 (witness): the system-resolver fall-through Accept and the
default-action independence at a concrete DNS request. -/
theorem c6_witness :
    ((decideOnConnection envBase conn6 none).verdict = Verdict.accept
      ∧ (decideOnConnection envBase conn6 none).reason = "allowing system resolver dns request")
    ∧ ((decideOnConnection envBase (conn6.withDefaultAction DefaultAction.permit) none).verdict
        = (decideOnConnection envBase conn6 none).verdict
      ∧ (decideOnConnection envBase (conn6.withDefaultAction DefaultAction.permit) none).reason
        = (decideOnConnection envBase conn6 none).reason) := by
  have h := c6_system_resolver envBase conn6 none lpBase rfl rfl rfl
  exact ⟨h.1 (by decide), h.2 DefaultAction.permit⟩

set_option maxRecDepth 10000 in
/-- Claim C7 (counterexample): the claim says the full prefix of the
domain preceding the eTLD+1 is scored. At a domain of a 110-character
label before example.com, the full prefix scores below 10 under the
oracle, every other condition of the claim holds, and yet
checkDomainHeuristics does not block: the code scores only the first
length-of-eTLD+1 characters of the trimmed domain (here 11 characters,
scoring 50). -/
theorem c7_counterexample :
    lp7.domainHeuristics = true
    ∧ ¬ tunnelDomain = ""
    ∧ env7.etldPlusOne (trimTrailingDots tunnelDomain) = some "example.com"
    ∧ ¬ env7.lmsScore ((splitOnChar '.' "example.com").headD "") < 5
    ∧ tunnelDomain.length > "example.com".length + 100
    ∧ env7.lmsScoreOfDomain tunnelLabel < 10
    ∧ checkDomainHeuristics env7 core7 lp7 none = none := by
  decide

/-- Claim C7 (amended): with DomainHeuristics enabled, a non-empty domain,
a valid eTLD+1 whose second-level label scores at least 5, and a domain
longer than the eTLD+1 by more than 100 characters, the code scores the
first length-of-eTLD+1 characters of the trimmed domain (a truncated
prefix, not the full prefix), and a score below 10 yields Block with
reason "possible data tunnel for covert communication and protection
bypassing". -/
theorem c7_amended (env : Env) (core : ConnCore) (lp : LayeredProfile) (pkt : Option Pkt)
    (etld1 : String)
    (hdh : lp.domainHeuristics = true)
    (hdom : ¬ core.domain = "")
    (het : env.etldPlusOne (trimTrailingDots core.domain) = some etld1)
    (h5 : ¬ env.lmsScore ((splitOnChar '.' etld1).headD "") < 5)
    (hlen : core.domain.length > etld1.length + 100)
    (h10 : env.lmsScoreOfDomain ((trimTrailingDots core.domain).take etld1.length) < 10) :
    checkDomainHeuristics env core lp pkt
      = some (.block "possible data tunnel for covert communication and protection bypassing"
          cfgOptionDomainHeuristicsKey) := by
  simp [checkDomainHeuristics, hdh, hdom, het, hlen, h10]
  simpa using h5

set_option maxRecDepth 10000 in
/-- Claim C7 (witness): the truncated-prefix tunnel block at the concrete
tunnel domain, under an oracle scoring every whole-domain query 3. -/
theorem c7_amended_witness :
    checkDomainHeuristics env7w core7 lp7 none
      = some (.block "possible data tunnel for covert communication and protection bypassing"
          cfgOptionDomainHeuristicsKey) :=
  c7_amended env7w core7 lp7 none "example.com" rfl (by decide) (by decide) (by decide)
    (by decide) (by decide)

/-- Claim C8: on filterlists startup, when reading the cache database
version and loading the bloom filters both succeed the filterListsLoaded
signal is given; when either fails the signal keeps its previous state and
a warning with code filterlists:disabled is raised; stop replaces the
signal by a fresh closed one. -/
theorem c8_cache_lifecycle (env : Filterlists.FLEnv) (s : Filterlists.FLState) :
    (env.cacheVersionOk = true ∧ env.bloomLoadOk = true →
      (Filterlists.start env s).filterListsLoaded = true)
    ∧ (¬ (env.cacheVersionOk = true ∧ env.bloomLoadOk = true) →
      (Filterlists.start env s).filterListsLoaded = s.filterListsLoaded
      ∧ Filterlists.filterlistsDisabled ∈ (Filterlists.start env s).warnings)
    ∧ (Filterlists.stop s).filterListsLoaded = false := by
  refine ⟨fun h => ?_, fun h => ?_, ?_⟩
  · simp [Filterlists.start, h]
  · constructor <;> simp [Filterlists.start, h]
  · simp [Filterlists.stop]

/-- Claim C8 (witness): the lifecycle at the initial state, with both
loads succeeding and with the version read failing. -/
theorem c8_witness :
    (Filterlists.start { cacheVersionOk := true, bloomLoadOk := true }
        Filterlists.initialState).filterListsLoaded = true
    ∧ ((Filterlists.start { cacheVersionOk := false, bloomLoadOk := true }
        Filterlists.initialState).filterListsLoaded = Filterlists.initialState.filterListsLoaded
      ∧ Filterlists.filterlistsDisabled
          ∈ (Filterlists.start { cacheVersionOk := false, bloomLoadOk := true }
              Filterlists.initialState).warnings)
    ∧ (Filterlists.stop Filterlists.initialState).filterListsLoaded = false := by
  refine ⟨(c8_cache_lifecycle { cacheVersionOk := true, bloomLoadOk := true }
      Filterlists.initialState).1 ⟨rfl, rfl⟩,
    (c8_cache_lifecycle { cacheVersionOk := false, bloomLoadOk := true }
      Filterlists.initialState).2.1 (by decide),
    (c8_cache_lifecycle { cacheVersionOk := true, bloomLoadOk := true }
      Filterlists.initialState).2.2⟩

/-- Claim C9: re-invoking DecideOnConnection on the connection returned by
a first call, with the profile revision unchanged (no update pending) and
the same external inputs, produces the identical verdict and reason. -/
theorem c9_idempotent (env : Env) (conn : Conn) (pkt : Option Pkt) (lp : LayeredProfile)
    (_hp : conn.core.process.profile = some lp)
    (_hnu : lp.needsUpdate = false) :
    (decideOnConnection env (decideOnConnection env conn pkt) pkt).verdict
      = (decideOnConnection env conn pkt).verdict
    ∧ (decideOnConnection env (decideOnConnection env conn pkt) pkt).reason
      = (decideOnConnection env conn pkt).reason := by
  have h1 := decideOnConnection_output env conn pkt
  have h2 := decideOnConnection_output env (decideOnConnection env conn pkt) pkt
  rw [decideOnConnection_core] at h2
  have h := h2.trans h1.symm
  simp only [Prod.mk.injEq] at h
  exact h

/-- Claim C9 (witness): idempotence at the scenario 6 connection. -/
theorem c9_witness :
    (decideOnConnection envBase (decideOnConnection envBase conn1 none) none).verdict
      = (decideOnConnection envBase conn1 none).verdict
    ∧ (decideOnConnection envBase (decideOnConnection envBase conn1 none) none).reason
      = (decideOnConnection envBase conn1 none).reason :=
  c9_idempotent envBase conn1 none lpBase rfl rfl

/-- Every module operation preserves both event ignore flags: none of
start, stop, or the two event handlers ever writes them. -/
theorem applyOp_preserves_flags (s : Filterlists.FLState) (op : Filterlists.FLOp) :
    (Filterlists.applyOp s op).ignoreNetEnvEvents = s.ignoreNetEnvEvents
    ∧ (Filterlists.applyOp s op).ignoreUpdateEvents = s.ignoreUpdateEvents := by
  cases op with
  | start env =>
    simp only [Filterlists.applyOp, Filterlists.start]
    split <;> exact ⟨rfl, rfl⟩
  | stop => exact ⟨rfl, rfl⟩
  | resourceUpdate =>
    simp only [Filterlists.applyOp, Filterlists.onResourceUpdateEvent]
    split <;> exact ⟨rfl, rfl⟩
  | onlineChanged b =>
    simp only [Filterlists.applyOp, Filterlists.onOnlineStatusChanged]
    split
    · exact ⟨rfl, rfl⟩
    · split <;> exact ⟨rfl, rfl⟩

/-- Flag preservation extends to any sequence of module operations. -/
theorem applyOps_preserves_flags (ops : List Filterlists.FLOp) (s : Filterlists.FLState) :
    (Filterlists.applyOps s ops).ignoreNetEnvEvents = s.ignoreNetEnvEvents
    ∧ (Filterlists.applyOps s ops).ignoreUpdateEvents = s.ignoreUpdateEvents := by
  induction ops generalizing s with
  | nil => exact ⟨rfl, rfl⟩
  | cons op ops ih =>
    have h := applyOp_preserves_flags s op
    have h2 := ih (Filterlists.applyOp s op)
    exact ⟨h2.1.trans h.1, h2.2.trans h.2⟩

/-- Claim C10: init sets ignoreNetEnvEvents and no module operation clears
it, so after init and any sequence of module operations every
online-status-changed event returns without invoking tryListUpdate, while
ignoreUpdateEvents stays unset and resource-update events do invoke it. -/
theorem c10_netenv_events_ignored (ops : List Filterlists.FLOp) (b : Bool) :
    (Filterlists.applyOps (Filterlists.moduleInit Filterlists.initialState) ops).ignoreNetEnvEvents
      = true
    ∧ (Filterlists.onOnlineStatusChanged
        (Filterlists.applyOps (Filterlists.moduleInit Filterlists.initialState) ops) b).2 = false
    ∧ (Filterlists.onResourceUpdateEvent
        (Filterlists.applyOps (Filterlists.moduleInit Filterlists.initialState) ops)).2 = true := by
  have h := applyOps_preserves_flags ops (Filterlists.moduleInit Filterlists.initialState)
  have hn : (Filterlists.applyOps (Filterlists.moduleInit Filterlists.initialState)
      ops).ignoreNetEnvEvents = true := h.1.trans rfl
  have hu : (Filterlists.applyOps (Filterlists.moduleInit Filterlists.initialState)
      ops).ignoreUpdateEvents = false := h.2.trans rfl
  refine ⟨hn, ?_, ?_⟩
  · simp [Filterlists.onOnlineStatusChanged, hn]
  · simp [Filterlists.onResourceUpdateEvent, hu]

end Portmaster
